import Mathlib

/-!
Verification of the WawEyeTracker desktop core against its natural-language
specification.  The Python sources are shallowly embedded: floats are
modelled as rationals (`ℚ`), the blink state machine of
`src/core/eye_tracker.py` becomes an explicit state-passing function, the
sqlite tables of `src/services/data_manager.py` become lists of rows, and
the sqlite statements of `src/services/sync_manager.py` are executed
against the schema that `DataManager._initialize_database` actually
creates (a statement naming a column or table absent from that schema
raises, and the surrounding `except` handler decides what happens next,
exactly as in the source).
-/

namespace WawEyeTracker

/-! ### Detection engine (`src/core/eye_tracker.py`) -/

/-- `BlinkEvent` dataclass: `timestamp`, `confidence`, `eye_aspect_ratio`
(field named `eye_ar` here), `frame_number`. -/
structure BlinkEvent where
  timestamp : ℚ
  confidence : ℚ
  eye_ar : ℚ
  frame_number : Nat
deriving DecidableEq

/-- Mutable detector state of `EyeTrackingEngine`: `self.COUNTER` and
`self.TOTAL_BLINKS`. -/
structure DetectState where
  counter : Nat
  totalBlinks : Nat
deriving DecidableEq

/-- `self.EYE_AR_THRESH = 0.25`. -/
def EYE_AR_THRESH : ℚ := 1/4

/-- `self.EYE_AR_CONSEC_FRAMES = 3`. -/
def EYE_AR_CONSEC_FRAMES : Nat := 3

/-- `EyeTrackingEngine._calculate_blink_confidence`. -/
def calculate_blink_confidence (eye_ar : ℚ) : ℚ :=
  if eye_ar < EYE_AR_THRESH then
    min ((EYE_AR_THRESH - eye_ar) / EYE_AR_THRESH) 1
  else 0

/-- One frame as seen by `_detect_blink`: `measurement = some o` when the
cascade classifiers produce an eye-aspect-ratio `o` for the frame,
`measurement = none` when no face / fewer than two eyes are found or the
extractor raises (the `except` branch of `_detect_blink` returns `None`
without touching `self.COUNTER`). -/
structure FrameInput where
  measurement : Option ℚ
  frame_number : Nat
  capture_time : ℚ
deriving DecidableEq

/-- `EyeTrackingEngine._detect_blink`, lines 199-216, for one measurement.
On `eye_ar < EYE_AR_THRESH` the counter is incremented; otherwise, if the
counter has reached `EYE_AR_CONSEC_FRAMES`, `TOTAL_BLINKS` is incremented
and a `BlinkEvent` is returned immediately — note that the source resets
`self.COUNTER = 0` only on the non-emitting branch, so the counter keeps
its value across an emission.  A `none` measurement leaves the state
untouched and returns no event. -/
def detect_blink (st : DetectState) (m : Option ℚ) (frame_number : Nat)
    (capture_time : ℚ) : DetectState × Option BlinkEvent :=
  match m with
  | none => (st, none)
  | some eye_ar =>
    if eye_ar < EYE_AR_THRESH then
      ({ st with counter := st.counter + 1 }, none)
    else if EYE_AR_CONSEC_FRAMES ≤ st.counter then
      ({ st with totalBlinks := st.totalBlinks + 1 },
        some { timestamp := capture_time
               confidence := calculate_blink_confidence eye_ar
               eye_ar := eye_ar
               frame_number := frame_number })
    else
      ({ st with counter := 0 }, none)

/-- The processing worker's per-frame loop (`_process_frames`): each frame
is fed to `_detect_blink`; emitted events are collected in order.  The
worker's own `except` clause means a failing frame only skips that
iteration, which the total `none` branch of `detect_blink` already
captures. -/
def process_frames (st : DetectState) : List FrameInput → DetectState × List BlinkEvent
  | [] => (st, [])
  | f :: rest =>
    let step := detect_blink st f.measurement f.frame_number f.capture_time
    let restRun := process_frames step.1 rest
    (restRun.1, match step.2 with
      | some e => e :: restRun.2
      | none => restRun.2)

/-- Feed a plain openness sequence to the state machine, one frame per
measurement, with consecutive frame numbers and unit capture times. -/
def frames_of_openness (os : List ℚ) : List FrameInput :=
  os.enum.map (fun p =>
    { measurement := some p.2, frame_number := p.1, capture_time := (p.1 : ℚ) })

/-- Modelled from the spec for C1: the number of maximal runs of
consecutive below-threshold measurements of length `≥ N` that are followed
by an at-or-above-threshold measurement.  `run` is the length of the
current below-threshold run. -/
def spec_blink_count (T : ℚ) (N : Nat) : Nat → List ℚ → Nat
  | _, [] => 0
  | run, o :: rest =>
    if o < T then spec_blink_count T N (run + 1) rest
    else (if N ≤ run then 1 else 0) + spec_blink_count T N 0 rest

/-- Modelled from the spec for C8: a no-face / extractor-error frame is
treated as neutral, i.e. as if an at-or-above-threshold measurement were
observed (the spec's "openness considered open"), while still emitting no
event for that frame.  Valid measurements behave as in the source. -/
def detect_blink_neutral_open (st : DetectState) (m : Option ℚ) (frame_number : Nat)
    (capture_time : ℚ) : DetectState × Option BlinkEvent :=
  match m with
  | some eye_ar => detect_blink st (some eye_ar) frame_number capture_time
  | none => ((detect_blink st (some EYE_AR_THRESH) frame_number capture_time).1, none)

/-- The claim-side processing loop for C8: as `process_frames` but with
no-face frames treated as at-or-above-threshold measurements. -/
def process_frames_neutral_open (st : DetectState) :
    List FrameInput → DetectState × List BlinkEvent
  | [] => (st, [])
  | f :: rest =>
    let step := detect_blink_neutral_open st f.measurement f.frame_number f.capture_time
    let restRun := process_frames_neutral_open step.1 rest
    (restRun.1, match step.2 with
      | some e => e :: restRun.2
      | none => restRun.2)

/-- `true` when some two consecutively emitted events are closer in time
than `gap` (the property the minimum inter-blink interval of C7 is
supposed to rule out). -/
def has_events_closer_than (gap : ℚ) : List BlinkEvent → Bool
  | e1 :: e2 :: rest =>
    (decide (e2.timestamp - e1.timestamp < gap)) || has_events_closer_than gap (e2 :: rest)
  | _ => false

/-! ### Local store (`src/services/data_manager.py`) -/

/-- `DataManager._generate_id` returns
`hashlib.md5(f"{time.time()}{self.user_id}".encode()).hexdigest()`.
The md5 digest is modelled as its input pair `(wall-clock time, user id)`:
md5 is a deterministic function of that string, and distinct inputs are
taken to produce distinct digests. -/
structure RecordId where
  gen_time : ℚ
  user_id : String
deriving DecidableEq

/-- One row of the `local_blink_data` table (the `BlinkDataRecord`
dataclass). -/
structure BlinkRow where
  id : RecordId
  session_id : String
  timestamp : Int
  blink_count : Nat
  confidence_score : ℚ
  eye_strain_score : ℚ
  interval_seconds : Nat
  synced : Bool
  sync_attempts : Nat
  created_at : ℚ
deriving DecidableEq

/-- One row of the `local_sessions` table (the `SessionRecord`
dataclass). -/
structure SessionRow where
  id : String
  user_id : String
  device_id : String
  start_time : ℚ
  end_time : Option ℚ
  total_blinks : Int
  app_version : String
  synced : Bool
  created_at : ℚ
deriving DecidableEq

/-- Python `int(q)`: truncation toward zero. -/
def pyInt (q : ℚ) : Int := if 0 ≤ q then ⌊q⌋ else ⌈q⌉

/-- The 60-second bucket key of `_aggregate_blink_data`:
`int(event.timestamp / 60) * 60`. -/
def interval_start (t : ℚ) : Int := pyInt (t / 60) * 60

/-- `DataManager._aggregate_blink_data`: group events into a Python dict
keyed by bucket start.  Dicts iterate in insertion order, so the groups
are kept in first-occurrence order, each holding its events in input
order. -/
def aggregate_blink_data (events : List BlinkEvent) : List (Int × List BlinkEvent) :=
  events.foldl (fun acc e =>
    let k := interval_start e.timestamp
    if acc.any (fun p => p.1 = k) then
      acc.map (fun p => if p.1 = k then (p.1, p.2 ++ [e]) else p)
    else acc ++ [(k, [e])]) []

/-- Average confidence of a bucket:
`sum(b.confidence for b in blinks) / len(blinks)`. -/
def avg_confidence (blinks : List BlinkEvent) : ℚ :=
  (blinks.map (fun b => b.confidence)).sum / blinks.length

/-- `DataManager._calculate_eye_strain_score`. -/
def calculate_eye_strain_score (blinks : List BlinkEvent) : ℚ :=
  let blink_count := blinks.length
  let base_strain : ℚ :=
    if blink_count < 10 then 4/5
    else if blink_count < 15 then 3/5
    else if blink_count ≤ 20 then 1/5
    else 2/5
  let confidence_factor := 1 - avg_confidence blinks
  min 1 (base_strain + confidence_factor * (1/5))

/-- Modelled from the spec's words for C6: `min(1, base + (1 -
avgConfidence) * 0.2)` with base 0.8 below 10 blinks, 0.6 below 15, 0.2 up
to 20, and 0.4 above 20. -/
def spec_eye_strain_score (blink_count : Nat) (avgConfidence : ℚ) : ℚ :=
  let base : ℚ :=
    if blink_count < 10 then 8/10
    else if blink_count < 15 then 6/10
    else if blink_count ≤ 20 then 2/10
    else 4/10
  min 1 (base + (1 - avgConfidence) * (2/10))

/-- `INSERT OR REPLACE` into `local_blink_data`: the only uniqueness
constraint of the table is the primary key `id`, so exactly the rows
sharing the new row's `id` are replaced. -/
def insert_or_replace (table : List BlinkRow) (r : BlinkRow) : List BlinkRow :=
  (table.filter (fun x => x.id ≠ r.id)) ++ [r]

/-- The per-bucket loop of `store_blink_data`: for the `i`-th bucket a
fresh id is generated from the wall clock `gen i`, the aggregate row is
built, and inserted with `INSERT OR REPLACE`. -/
def store_groups (user_id session_id : String) (gen : Nat → ℚ) (now : ℚ) :
    Nat → List (Int × List BlinkEvent) → List BlinkRow → List BlinkRow
  | _, [], table => table
  | i, (k, blinks) :: rest, table =>
    store_groups user_id session_id gen now (i + 1) rest
      (insert_or_replace table
        { id := { gen_time := gen i, user_id := user_id }
          session_id := session_id
          timestamp := k
          blink_count := blinks.length
          confidence_score := avg_confidence blinks
          eye_strain_score := calculate_eye_strain_score blinks
          interval_seconds := 60
          synced := false
          sync_attempts := 0
          created_at := now })

/-- `DataManager.store_blink_data`: aggregate the incoming events into
60-second buckets and write one row per bucket.  `gen i` is the wall
clock observed by the `i`-th `_generate_id()` call of this invocation and
`now` the wall clock used for `created_at`. -/
def store_blink_data (user_id : String) (table : List BlinkRow) (session_id : String)
    (blink_events : List BlinkEvent) (gen : Nat → ℚ) (now : ℚ) : List BlinkRow :=
  if blink_events = [] then table
  else store_groups user_id session_id gen now 0 (aggregate_blink_data blink_events) table

/-- `DataManager.end_session`: `UPDATE local_sessions SET end_time = ?,
total_blinks = ? WHERE id = ?` with `time.time()` and the caller-supplied
`total_blinks`. -/
def end_session (sessions : List SessionRow) (session_id : String)
    (total_blinks : Int) (now : ℚ) : List SessionRow :=
  sessions.map (fun s =>
    if s.id = session_id then { s with end_time := some now, total_blinks := total_blinks }
    else s)

/-- Sum of the stored aggregated blink counts of one session —
the quantity the spec says `endSession` must store in `total_blinks`. -/
def sum_blink_counts (table : List BlinkRow) (session_id : String) : Int :=
  ((table.filter (fun r => r.session_id = session_id)).map (fun r => (r.blink_count : Int))).sum

/-! ### Sync coordinator (`src/services/sync_manager.py`)

`SyncManager` talks to the sqlite database created by
`DataManager._initialize_database`.  Its statements are modelled at the
same level sqlite executes them: a statement that names a column or table
missing from that schema fails to prepare, the `except Exception` handler
around it runs, and the data is left untouched. -/

/-- One row of the `sync_queue` table, with exactly the columns of the
`CREATE TABLE sync_queue` statement in `DataManager._initialize_database`
(defaults: `retry_count 0`, `max_retries 5`, `status 'pending'`). -/
structure SyncQueueRow where
  id : Nat
  endpoint : String
  method : String
  payload : String
  headers : Option String
  retry_count : Int
  max_retries : Int
  next_retry : Option ℚ
  created_at : ℚ
  status : String
deriving DecidableEq

/-- Column names of the `sync_queue` table in the schema the
`DataManager` creates. -/
def sync_queue_columns : List String :=
  ["id", "endpoint", "method", "payload", "headers",
   "retry_count", "max_retries", "next_retry", "created_at", "status"]

/-- Table names created by `DataManager._initialize_database`. -/
def db_tables : List String :=
  ["local_blink_data", "local_sessions", "sync_queue", "user_settings", "consent_history"]

/-- Columns named by the `SELECT` of
`SyncManager._get_sync_queue_items`: `id, endpoint, method, data,
retry_count, last_attempt`. -/
def get_items_select_columns : List String :=
  ["id", "endpoint", "method", "data", "retry_count", "last_attempt"]

/-- Columns assigned by the `UPDATE` of
`SyncManager._increment_retry_count`: `retry_count` and `last_attempt`. -/
def increment_retry_update_columns : List String :=
  ["retry_count", "last_attempt"]

/-- `ORDER BY created_at ASC`: insertion sort of the filtered rows by
ascending `created_at`. -/
def insert_by_created_at (r : SyncQueueRow) : List SyncQueueRow → List SyncQueueRow
  | [] => [r]
  | x :: xs =>
    if r.created_at < x.created_at then r :: x :: xs
    else x :: insert_by_created_at r xs

def sort_by_created_at : List SyncQueueRow → List SyncQueueRow
  | [] => []
  | x :: xs => insert_by_created_at x (sort_by_created_at xs)

/-- `SyncManager._get_sync_queue_items`: `SELECT id, endpoint, method,
data, retry_count, last_attempt FROM sync_queue WHERE retry_count < 5
ORDER BY created_at ASC LIMIT 50`.  Against the schema actually created by
the `DataManager` the select names the columns `data` and `last_attempt`,
which do not exist, so sqlite raises and the `except` handler returns the
empty list. -/
def get_sync_queue_items (queue : List SyncQueueRow) : List SyncQueueRow :=
  if get_items_select_columns.all (fun c => sync_queue_columns.contains c) then
    (sort_by_created_at (queue.filter (fun r => r.retry_count < 5))).take 50
  else []

/-- `SyncManager._increment_retry_count`: `UPDATE sync_queue SET
retry_count = retry_count + 1, last_attempt = CURRENT_TIMESTAMP WHERE id =
?`.  The assignment names the column `last_attempt`, absent from the
schema, so sqlite raises, the `except` handler logs, and the row is left
unchanged. -/
def increment_retry_count (queue : List SyncQueueRow) (item_id : Nat) : List SyncQueueRow :=
  if increment_retry_update_columns.all (fun c => sync_queue_columns.contains c) then
    queue.map (fun r =>
      if r.id = item_id then { r with retry_count := r.retry_count + 1 } else r)
  else queue

/-- `SyncManager._mark_sync_item_completed`: `DELETE FROM sync_queue WHERE
id = ?`. -/
def mark_sync_item_completed (queue : List SyncQueueRow) (item_id : Nat) : List SyncQueueRow :=
  queue.filter (fun r => r.id ≠ item_id)

/-- `SyncManager._process_sync_item`: an unknown `method` string maps to
no `HTTPMethod` and returns `False`; otherwise the outcome is the
network's answer to this item's request, modelled by `responds`. -/
def process_sync_item (responds : Nat → Bool) (item : SyncQueueRow) : Bool :=
  if item.method = "GET" ∨ item.method = "POST" ∨ item.method = "PUT"
      ∨ item.method = "DELETE" then
    responds item.id
  else false

/-- The per-item loop of `_perform_sync`: on success the item is deleted,
on failure `_increment_retry_count` runs; successes and failures are
counted. -/
def process_items (responds : Nat → Bool) :
    List SyncQueueRow → List SyncQueueRow → List SyncQueueRow × Nat × Nat
  | queue, [] => (queue, 0, 0)
  | queue, item :: rest =>
    if process_sync_item responds item then
      let next := process_items responds (mark_sync_item_completed queue item.id) rest
      (next.1, next.2.1 + 1, next.2.2)
    else
      let next := process_items responds (increment_retry_count queue item.id) rest
      (next.1, next.2.1, next.2.2 + 1)

/-- The `SyncManager` state visible to the claims: `self.is_online`,
`self.sync_in_progress`, and the `sync_queue` table. -/
structure SyncManagerState where
  is_online : Bool
  sync_in_progress : Bool
  queue : List SyncQueueRow
deriving DecidableEq

/-- The `try`-block body of `_perform_sync`: fetch the queue items,
process them, then read `self.data_manager.pending_records` — an
attribute the repository's `DataManager` does not define, so the body
always ends in `AttributeError`, caught by the surrounding `except`
(which emits `sync_error`).  Returns the state reached so far, the
success/error counters, and the exception outcome. -/
def perform_sync_body (responds : Nat → Bool) (st : SyncManagerState) :
    SyncManagerState × Nat × Nat × Except String Unit :=
  let items := get_sync_queue_items st.queue
  let run := process_items responds st.queue items
  ({ st with queue := run.1 }, run.2.1, run.2.2,
    Except.error "AttributeError: DataManager has no attribute pending_records")

/-- `SyncManager._perform_sync`: sets `sync_in_progress = True`, runs the
body, and — in the `finally` clause — clears `sync_in_progress` whether
or not the body raised. -/
def perform_sync (responds : Nat → Bool) (st : SyncManagerState) :
    SyncManagerState × Nat × Nat × Except String Unit :=
  let st1 := { st with sync_in_progress := true }
  let run := perform_sync_body responds st1
  ({ run.1 with sync_in_progress := false }, run.2)

/-- `SyncManager.sync_pending_data`: returns immediately when offline or
when a pass is already in progress, or when unauthenticated; otherwise
runs the pass. -/
def sync_pending_data (authenticated : Bool) (responds : Nat → Bool)
    (st : SyncManagerState) : SyncManagerState :=
  if ¬st.is_online ∨ st.sync_in_progress then st
  else if ¬authenticated then st
  else (perform_sync responds st).1

/-- `SyncManager.force_sync`: triggers `sync_pending_data` unless a pass
is already in progress. -/
def force_sync (authenticated : Bool) (responds : Nat → Bool)
    (st : SyncManagerState) : SyncManagerState :=
  if ¬st.sync_in_progress then sync_pending_data authenticated responds st
  else st

/-- `SyncManager.check_connection` with a successful health probe result
`health_ok`: on a status change the flag is updated and, when the new
status is online, a sync pass is triggered. -/
def check_connection (authenticated : Bool) (responds : Nat → Bool)
    (health_ok : Bool) (st : SyncManagerState) : SyncManagerState :=
  if health_ok ≠ st.is_online then
    let st1 := { st with is_online := health_ok }
    if health_ok then sync_pending_data authenticated responds st1 else st1
  else st

/-- The dictionary returned by `SyncManager.get_sync_status`, with its
exact keys. -/
structure SyncStatus where
  online : Bool
  sync_in_progress : Bool
  pending_items : Nat
  failed_items : Nat
  unsynced_blinks : Nat
  pending_records : Nat
deriving DecidableEq

/-- The dictionary returned by the `except` branch of `get_sync_status`. -/
def default_sync_status : SyncStatus :=
  { online := false
    sync_in_progress := false
    pending_items := 0
    failed_items := 0
    unsynced_blinks := 0
    pending_records := 0 }

/-- The `try`-block of `SyncManager.get_sync_status`: the two
`sync_queue` counts succeed, but the third query reads `FROM blink_data`
— a table the schema does not have (the blink table is named
`local_blink_data`) — so sqlite raises there; were that table present,
the subsequent `self.data_manager.pending_records` read would raise
`AttributeError` instead.  Either way the body raises. -/
def get_sync_status_body (st : SyncManagerState) : Except String SyncStatus :=
  let pending_count := (st.queue.filter (fun r => r.retry_count < 5)).length
  let failed_count := (st.queue.filter (fun r => 5 ≤ r.retry_count)).length
  if db_tables.contains "blink_data" then
    let _ := (pending_count, failed_count)
    Except.error "AttributeError: DataManager has no attribute pending_records"
  else Except.error "no such table: blink_data"

/-- `SyncManager.get_sync_status`: result of the `try` body, or the
all-defaults dictionary when the body raises. -/
def get_sync_status (st : SyncManagerState) : SyncStatus :=
  match get_sync_status_body st with
  | Except.ok s => s
  | Except.error _ => default_sync_status


/-! ### Concrete instances used by the claims -/

/-- The openness sequence exhibiting the missing counter reset: a
below-threshold run of length 3 followed by two at-or-above-threshold
measurements. -/
def c1_openness : List ℚ := [1/5, 1/5, 1/5, 3/10, 3/10]

/-- A single blink event half a minute into the epoch, fully confident. -/
def c2_events : List BlinkEvent :=
  [{ timestamp := 30, confidence := 1, eye_ar := 1/10, frame_number := 1 }]

/-- A single `sync_queue` item in its initial state (`retry_count 0`,
`status 'pending'`). -/
def c3_item : SyncQueueRow :=
  { id := 1, endpoint := "/api/v1/sessions", method := "POST", payload := "p"
    headers := none, retry_count := 0, max_retries := 5, next_retry := none
    created_at := 0, status := "pending" }

/-- An open session row. -/
def c4_session : SessionRow :=
  { id := "s", user_id := "u", device_id := "d", start_time := 0, end_time := none
    total_blinks := 0, app_version := "1.0.0", synced := false, created_at := 0 }

/-- A stored aggregated reading of 3 blinks for session `"s"`. -/
def c4_blink_table : List BlinkRow :=
  [{ id := { gen_time := 50, user_id := "u" }, session_id := "s", timestamp := 0
     blink_count := 3, confidence_score := 1, eye_strain_score := 4/5
     interval_seconds := 60, synced := false, sync_attempts := 0, created_at := 50 }]

/-- Three all-pending queue items created at times 1 < 2 < 3, each due
(`next_retry ≤` any present time). -/
def c5_queue : List SyncQueueRow :=
  [{ id := 1, endpoint := "/api/v1/sessions", method := "POST", payload := "p1"
     headers := none, retry_count := 0, max_retries := 5, next_retry := some 0
     created_at := 1, status := "pending" },
   { id := 2, endpoint := "/api/v1/sessions/1", method := "PUT", payload := "p2"
     headers := none, retry_count := 0, max_retries := 5, next_retry := some 0
     created_at := 2, status := "pending" },
   { id := 3, endpoint := "/api/v1/sessions/1/blinks/batch", method := "POST", payload := "p3"
     headers := none, retry_count := 0, max_retries := 5, next_retry := some 0
     created_at := 3, status := "pending" }]

/-- A one-event bucket with full extractor confidence. -/
def c6_blinks : List BlinkEvent :=
  [{ timestamp := 30, confidence := 1, eye_ar := 1/10, frame_number := 1 }]

/-- Frames at 20 frames per second (50 ms apart): a 3-frame closure then
two open frames. -/
def c7_frames : List FrameInput :=
  [{ measurement := some (1/5), frame_number := 0, capture_time := 0 },
   { measurement := some (1/5), frame_number := 1, capture_time := 1/20 },
   { measurement := some (1/5), frame_number := 2, capture_time := 1/10 },
   { measurement := some (3/10), frame_number := 3, capture_time := 3/20 },
   { measurement := some (3/10), frame_number := 4, capture_time := 1/5 }]

/-- A single open frame captured at time 0. -/
def c7_frames_a : List FrameInput :=
  [{ measurement := some (3/10), frame_number := 0, capture_time := 0 }]

/-- The same measurement as `c7_frames_a` but under a different frame
number and capture time. -/
def c7_frames_b : List FrameInput :=
  [{ measurement := some (3/10), frame_number := 7, capture_time := 9 }]

/-- Two closed frames, a no-face frame, one more closed frame, then an
open frame. -/
def c8_frames : List FrameInput :=
  [{ measurement := some (1/5), frame_number := 0, capture_time := 0 },
   { measurement := some (1/5), frame_number := 1, capture_time := 1 },
   { measurement := none, frame_number := 2, capture_time := 2 },
   { measurement := some (1/5), frame_number := 3, capture_time := 3 },
   { measurement := some (3/10), frame_number := 4, capture_time := 4 }]

/-! ### Helper lemmas -/

/-- The aggregation bucket of a timestamp 30 seconds into the epoch is
the interval starting at 0. -/
theorem c2_interval : interval_start 30 = 0 := by
  unfold interval_start pyInt
  rw [if_pos (by norm_num : (0:ℚ) ≤ 30/60)]
  rw [show ((30:ℚ)/60) = 1/2 by norm_num]
  rw [Int.floor_eq_zero_iff.mpr (by constructor <;> norm_num)]
  ring

/-- Aggregating the one-event list yields one bucket at interval 0. -/
theorem c2_aggregate : aggregate_blink_data c2_events = [(0, c2_events)] := by
  simp [aggregate_blink_data, c2_events, c2_interval]

/-- A bucket of nonnegative confidences has a nonnegative sum. -/
theorem conf_sum_nonneg (l : List BlinkEvent) (h : ∀ b ∈ l, 0 ≤ b.confidence) :
    0 ≤ (l.map fun b => b.confidence).sum := by
  induction l with
  | nil => simp
  | cons x xs ih =>
    simp only [List.map_cons, List.sum_cons]
    exact add_nonneg (h x (by simp)) (ih fun b hb => h b (by simp [hb]))

/-- A bucket of confidences each at most 1 has sum at most its size. -/
theorem conf_sum_le_length (l : List BlinkEvent) (h : ∀ b ∈ l, b.confidence ≤ 1) :
    (l.map fun b => b.confidence).sum ≤ (l.length : ℚ) := by
  induction l with
  | nil => simp
  | cons x xs ih =>
    simp only [List.map_cons, List.sum_cons, List.length_cons]
    push_cast
    have := ih fun b hb => h b (by simp [hb])
    have hx := h x (by simp)
    linarith

/-- The state update and the decision to emit of `_detect_blink` depend
only on the measurement, never on the frame number or the capture
time. -/
theorem detect_blink_det (st : DetectState) (m : Option ℚ) (n n' : Nat) (t t' : ℚ) :
    (detect_blink st m n t).1 = (detect_blink st m n' t').1
    ∧ (detect_blink st m n t).2.isSome = (detect_blink st m n' t').2.isSome := by
  cases m with
  | none => exact ⟨rfl, rfl⟩
  | some o =>
    simp only [detect_blink]
    split_ifs <;> simp

/-! ### Claims -/

/-- C1: the number of emitted `BlinkEvent`s is claimed to equal the
number of maximal below-threshold runs of length ≥ N that are followed by
an at-or-above-threshold measurement, with exactly one event per
qualifying closed-to-open transition (`T = 0.25`, `N = 3`, start in
`OPEN` with counter 0).  The code violates this: `_detect_blink` never
resets `COUNTER` on emission, so on `[0.2, 0.2, 0.2, 0.3, 0.3]` — one
qualifying maximal run, hence one claimed event — it emits an event at
each of the two at-or-above-threshold frames. -/
theorem c1_blink_count_code_bug :
    (process_frames { counter := 0, totalBlinks := 0 }
        (frames_of_openness c1_openness)).2.length = 2
    ∧ spec_blink_count EYE_AR_THRESH EYE_AR_CONSEC_FRAMES 0 c1_openness = 1 := by
  constructor
  · norm_num [c1_openness, process_frames, detect_blink, frames_of_openness,
      EYE_AR_THRESH, EYE_AR_CONSEC_FRAMES, List.enum, List.enumFrom]
  · norm_num [c1_openness, spec_blink_count, EYE_AR_THRESH, EYE_AR_CONSEC_FRAMES]

/-- C2: ingestion is claimed idempotent — re-storing the identical event
set leaves exactly one aggregated row per `(sessionId, intervalStart)`
key, unchanged.  The code violates this: the `INSERT OR REPLACE` of
`store_blink_data` is keyed on the md5-of-wall-clock primary key `id`
freshly generated per call, not on `(session_id, timestamp)`, so a second
ingestion at a later wall-clock time inserts a second row for the same
interval: after re-ingesting the same single event the store holds two
rows for key `("s", 0)`, each counting 1 blink. -/
theorem c2_upsert_code_bug :
    ((store_blink_data "u" [] "s" c2_events (fun _ => 100) 100).filter
        (fun r => r.session_id = "s" ∧ r.timestamp = 0)).length = 1
    ∧ ((store_blink_data "u"
          (store_blink_data "u" [] "s" c2_events (fun _ => 100) 100)
          "s" c2_events (fun _ => 200) 200).filter
        (fun r => r.session_id = "s" ∧ r.timestamp = 0)).length = 2
    ∧ ((store_blink_data "u"
          (store_blink_data "u" [] "s" c2_events (fun _ => 100) 100)
          "s" c2_events (fun _ => 200) 200).map fun r => r.blink_count) = [1, 1] := by
  refine ⟨?_, ?_, ?_⟩ <;>
    norm_num [store_blink_data, store_groups, c2_aggregate, c2_interval, insert_or_replace,
      c2_events, List.filter, avg_confidence, calculate_eye_strain_score]

/-- C3 counterexample: after three consecutive failures — three runs of
the failure handler `_increment_retry_count` — the item is claimed to
have `retryCount == 3` (with strictly increasing `nextRetryAt`).  In
fact the handler's `UPDATE` names the column `last_attempt`, which the
`sync_queue` schema does not have, so every run fails and is swallowed:
the queue is bit-for-bit unchanged and `retry_count` is still 0. -/
theorem c3_retry_counterexample :
    increment_retry_count (increment_retry_count (increment_retry_count [c3_item] 1) 1) 1
        = [c3_item]
    ∧ ((increment_retry_count (increment_retry_count (increment_retry_count [c3_item] 1) 1) 1).map
        (fun r => r.retry_count)) = [0]
    ∧ ¬ ((increment_retry_count (increment_retry_count (increment_retry_count [c3_item] 1) 1) 1).map
        (fun r => r.retry_count)) = [3] :=
  ⟨rfl, rfl, by decide⟩

/-- C3 amended: a failed network call records nothing at all — the
failure handler leaves the queue unchanged (its `UPDATE` references the
nonexistent `last_attempt` column and the error is swallowed), no
`next_retry` is ever written, no item is ever marked `failed`, and a
whole sync pass leaves the `sync_queue` table unchanged; items with
`retry_count ≥ 5` are merely excluded from selection, never marked. -/
theorem c3_retry_noop_amended (queue : List SyncQueueRow) (item_id : Nat)
    (responds : Nat → Bool) (st : SyncManagerState) :
    increment_retry_count queue item_id = queue
    ∧ (perform_sync responds st).1.queue = st.queue := ⟨rfl, rfl⟩

/-- C4 counterexample: `end_session` is claimed to compute `totalBlinks`
as the sum of the session's stored aggregated blink counts.  The code
instead stores whatever `total_blinks` value the caller passes: ending
session `"s"` with the argument 7 while its aggregated readings sum to 3
leaves `total_blinks = 7 ≠ 3`. -/
theorem c4_total_blinks_counterexample :
    ((end_session [c4_session] "s" 7 100).map fun s => s.total_blinks) = [7]
    ∧ sum_blink_counts c4_blink_table "s" = 3
    ∧ ¬ (((end_session [c4_session] "s" 7 100).map fun s => s.total_blinks)
        = [sum_blink_counts c4_blink_table "s"]) :=
  ⟨rfl, rfl, by decide⟩

/-- C4 amended: `end_session(session_id, total_blinks)` sets the matching
session's `end_time` to the current time and its `total_blinks` to the
caller-supplied argument, leaving every other row unchanged; it computes
no sum itself, so the stored total equals the sum of that session's
aggregated blink counts only if the caller passes that sum. -/
theorem c4_end_session_amended (sessions : List SessionRow) (sid : String) (v : Int) (now : ℚ) :
    (end_session sessions sid v now).length = sessions.length
    ∧ (∀ s ∈ sessions, s.id = sid →
        ({ s with end_time := some now, total_blinks := v } : SessionRow)
          ∈ end_session sessions sid v now)
    ∧ (∀ s' ∈ end_session sessions sid v now, s'.id ≠ sid → s' ∈ sessions) := by
  refine ⟨by simp [end_session], ?_, ?_⟩
  · intro s hs hid
    have hf : ({ s with end_time := some now, total_blinks := v } : SessionRow)
        = (fun x => if x.id = sid then { x with end_time := some now, total_blinks := v } else x) s := by
      simp [hid]
    rw [end_session, hf]
    exact List.mem_map_of_mem _ hs
  · intro s' hs' hid
    rw [end_session] at hs'
    obtain ⟨a, ha, hfa⟩ := List.mem_map.mp hs'
    by_cases h : a.id = sid
    · exfalso
      apply hid
      rw [← hfa]
      simp [h]
    · rw [← hfa]
      simp only [h, if_neg, ite_false]
      exact ha

/-- Witness for C4's amended statement at the concrete one-session
store. -/
theorem c4_end_session_amended_witness :
    (end_session [c4_session] "s" 7 100).length = 1
    ∧ ({ c4_session with end_time := some 100, total_blinks := 7 } : SessionRow)
        ∈ end_session [c4_session] "s" 7 100 := by
  have h := c4_end_session_amended [c4_session] "s" 7 100
  exact ⟨h.1, h.2.1 c4_session (by simp) rfl⟩

/-- C5 counterexample: with three pending, due items created at times
1 < 2 < 3, the claim says a sync pass attempts exactly those items in
that order.  The selection query of `_get_sync_queue_items` names the
columns `data` and `last_attempt`, which the `sync_queue` schema does not
have, so it fails and the handler returns the empty list: nothing is
attempted. -/
theorem c5_order_counterexample :
    (c5_queue.map fun r => r.status) = ["pending", "pending", "pending"]
    ∧ (get_sync_queue_items c5_queue).map (fun r => r.id) = []
    ∧ ¬ ((get_sync_queue_items c5_queue).map (fun r => r.id) = [1, 2, 3]) :=
  ⟨rfl, rfl, by decide⟩

/-- C5 amended: a sync pass attempts no queue items whatsoever: for every
queue state the selection returns the empty list, because its `SELECT`
references the columns `data` and `last_attempt` that are absent from the
`sync_queue` table, and the resulting error is swallowed.  (The query
text would otherwise select `retry_count < 5` ordered by `created_at`
ascending, limit 50 — with no `status` or `next_retry` condition.) -/
theorem c5_no_items_amended (queue : List SyncQueueRow) :
    get_sync_queue_items queue = [] := rfl

/-- C6: for a non-empty 60-second bucket whose per-event confidences lie
in `[0, 1]`, the eye-strain score equals `min(1, base + (1 -
avgConfidence) * 0.2)` with base 0.8 below 10 blinks, 0.6 below 15, 0.2
up to 20, and 0.4 above 20, and the result lies in `[0, 1]`. -/
theorem c6_eye_strain_confirmed (blinks : List BlinkEvent) (hne : blinks ≠ [])
    (hconf : ∀ b ∈ blinks, 0 ≤ b.confidence ∧ b.confidence ≤ 1) :
    calculate_eye_strain_score blinks
        = spec_eye_strain_score blinks.length (avg_confidence blinks)
    ∧ 0 ≤ calculate_eye_strain_score blinks
    ∧ calculate_eye_strain_score blinks ≤ 1 := by
  have hlen : 0 < (blinks.length : ℚ) := by
    have := List.length_pos.mpr hne
    exact_mod_cast this
  have havg0 : 0 ≤ avg_confidence blinks :=
    div_nonneg (conf_sum_nonneg blinks fun b hb => (hconf b hb).1) (by positivity)
  have havg1 : avg_confidence blinks ≤ 1 := by
    rw [avg_confidence, div_le_one hlen]
    exact conf_sum_le_length blinks fun b hb => (hconf b hb).2
  refine ⟨?_, ?_, ?_⟩
  · simp only [calculate_eye_strain_score, spec_eye_strain_score]
    split_ifs <;> norm_num
  · simp only [calculate_eye_strain_score]
    refine le_min (by norm_num) ?_
    have hterm : 0 ≤ (1 - avg_confidence blinks) * (1/5 : ℚ) := by
      apply mul_nonneg <;> linarith
    split_ifs <;> linarith
  · simp only [calculate_eye_strain_score]
    exact min_le_left _ _

/-- Witness for C6 at a concrete one-event bucket. -/
theorem c6_eye_strain_witness :
    calculate_eye_strain_score c6_blinks
        = spec_eye_strain_score c6_blinks.length (avg_confidence c6_blinks)
    ∧ 0 ≤ calculate_eye_strain_score c6_blinks
    ∧ calculate_eye_strain_score c6_blinks ≤ 1 :=
  c6_eye_strain_confirmed c6_blinks (by simp [c6_blinks]) (by simp [c6_blinks])

/-- C7 counterexample: the detector is claimed never to emit two events
less than the minimum inter-blink interval (0.2 s) apart.  At 20 frames
per second, a 3-frame closure followed by two open frames yields two
events 0.05 s apart: no timestamp comparison against the last emitted
event exists anywhere in `_detect_blink`. -/
theorem c7_close_events_counterexample :
    ((process_frames { counter := 0, totalBlinks := 0 } c7_frames).2.map fun e => e.timestamp)
        = [3/20, 1/5]
    ∧ has_events_closer_than (1/5)
        (process_frames { counter := 0, totalBlinks := 0 } c7_frames).2 = true := by
  constructor
  · norm_num [c7_frames, process_frames, detect_blink, EYE_AR_THRESH, EYE_AR_CONSEC_FRAMES]
  · norm_num [c7_frames, process_frames, detect_blink, EYE_AR_THRESH, EYE_AR_CONSEC_FRAMES,
      has_events_closer_than]

/-- C7 amended: the detector performs no inter-blink-interval
suppression at all — whether an event is emitted depends only on the
openness measurements, never on any timestamp: two frame sequences with
identical measurements produce the same final state and the same number
of emitted events no matter their capture times. -/
theorem c7_no_time_dependence (st : DetectState) (fs gs : List FrameInput)
    (h : fs.map (fun f => f.measurement) = gs.map (fun f => f.measurement)) :
    (process_frames st fs).1 = (process_frames st gs).1
    ∧ (process_frames st fs).2.length = (process_frames st gs).2.length := by
  induction fs generalizing gs st with
  | nil =>
    cases gs with
    | nil => exact ⟨rfl, rfl⟩
    | cons g gs => simp at h
  | cons f fs ih =>
    cases gs with
    | nil => simp at h
    | cons g gs =>
      simp only [List.map_cons, List.cons.injEq] at h
      obtain ⟨hm, htl⟩ := h
      have hd : (detect_blink st f.measurement f.frame_number f.capture_time).1
            = (detect_blink st g.measurement g.frame_number g.capture_time).1
          ∧ (detect_blink st f.measurement f.frame_number f.capture_time).2.isSome
            = (detect_blink st g.measurement g.frame_number g.capture_time).2.isSome := by
        rw [← hm]
        exact detect_blink_det st f.measurement f.frame_number g.frame_number
          f.capture_time g.capture_time
      obtain ⟨ihs, ihl⟩ :=
        ih (detect_blink st f.measurement f.frame_number f.capture_time).1 gs htl
      simp only [process_frames]
      rw [← hd.1] at *
      constructor
      · exact ihs
      · rcases hf : (detect_blink st f.measurement f.frame_number f.capture_time).2 with _ | e
        · rcases hg : (detect_blink st g.measurement g.frame_number g.capture_time).2 with _ | e'
          · simpa using ihl
          · rw [hf, hg] at hd
            simp at hd
        · rcases hg : (detect_blink st g.measurement g.frame_number g.capture_time).2 with _ | e'
          · rw [hf, hg] at hd
            simp at hd
          · simpa using ihl

/-- Witness for C7's amended statement: the same single measurement under
two different capture times. -/
theorem c7_no_time_dependence_witness :
    (process_frames { counter := 0, totalBlinks := 0 } c7_frames_a).1
        = (process_frames { counter := 0, totalBlinks := 0 } c7_frames_b).1
    ∧ (process_frames { counter := 0, totalBlinks := 0 } c7_frames_a).2.length
        = (process_frames { counter := 0, totalBlinks := 0 } c7_frames_b).2.length :=
  c7_no_time_dependence { counter := 0, totalBlinks := 0 } c7_frames_a c7_frames_b rfl

/-- C8 counterexample: a no-face / extractor-error frame is claimed to be
treated as if an at-or-above-threshold measurement were observed.  In the
code such a frame is skipped without touching the hysteresis counter: on
two closed frames, a no-face frame, a third closed frame and an open
frame, the code keeps counting through the gap and emits 1 event, while
the claimed treat-as-open semantics resets at the gap and emits none. -/
theorem c8_neutral_counterexample :
    (process_frames { counter := 0, totalBlinks := 0 } c8_frames).2.length = 1
    ∧ (process_frames_neutral_open { counter := 0, totalBlinks := 0 } c8_frames).2.length = 0 := by
  constructor
  · norm_num [c8_frames, process_frames, detect_blink, EYE_AR_THRESH, EYE_AR_CONSEC_FRAMES]
  · norm_num [c8_frames, process_frames_neutral_open, detect_blink_neutral_open, detect_blink,
      EYE_AR_THRESH, EYE_AR_CONSEC_FRAMES]

/-- C8 amended: on a no-face or extractor-error frame the worker emits no
event and leaves the detector state untouched — such frames are skipped
entirely, so a run is identical to the run over only the frames with a
valid measurement; per-frame processing is total and the loop always
continues. -/
theorem c8_skip_amended (st : DetectState) (fs : List FrameInput) (n : Nat) (t : ℚ) :
    detect_blink st none n t = (st, none)
    ∧ process_frames st fs = process_frames st (fs.filter fun f => f.measurement.isSome) := by
  refine ⟨rfl, ?_⟩
  induction fs generalizing st with
  | nil => rfl
  | cons f fs ih =>
    cases hm : f.measurement with
    | none =>
      rw [List.filter_cons_of_neg (by simp [hm])]
      simp only [process_frames, hm, detect_blink]
      exact ih st
    | some o =>
      rw [List.filter_cons_of_pos (by simp [hm])]
      simp only [process_frames]
      rw [ih]

/-- C9: the sync pass is single-flight and always clears its flag.  When
`sync_in_progress` is true, a periodic trigger (`sync_pending_data`), a
forced trigger (`force_sync`) and a connectivity-restored trigger
(`check_connection`) all start no new pass — the first two return the
state unchanged, and the probe at most flips `is_online` while leaving
the flag and the queue untouched; and `_perform_sync` ends with
`sync_in_progress = false` on every exit path of its `try/finally`,
the exception path included. -/
theorem c9_single_flight (authenticated health_ok : Bool) (responds : Nat → Bool)
    (st st' : SyncManagerState) (hflag : st.sync_in_progress = true) :
    sync_pending_data authenticated responds st = st
    ∧ force_sync authenticated responds st = st
    ∧ (check_connection authenticated responds health_ok st).sync_in_progress = true
    ∧ (check_connection authenticated responds health_ok st).queue = st.queue
    ∧ (perform_sync responds st').1.sync_in_progress = false := by
  refine ⟨by simp [sync_pending_data, hflag], by simp [force_sync, hflag], ?_, ?_, rfl⟩
  · unfold check_connection
    split_ifs <;> simp [sync_pending_data, hflag]
  · unfold check_connection
    split_ifs <;> simp [sync_pending_data, hflag]

/-- Witness for C9 at a concrete in-progress state. -/
theorem c9_single_flight_witness :
    sync_pending_data true (fun _ => true)
        { is_online := true, sync_in_progress := true, queue := [c3_item] }
      = { is_online := true, sync_in_progress := true, queue := [c3_item] }
    ∧ force_sync true (fun _ => true)
        { is_online := true, sync_in_progress := true, queue := [c3_item] }
      = { is_online := true, sync_in_progress := true, queue := [c3_item] }
    ∧ (check_connection true (fun _ => true) false
        { is_online := true, sync_in_progress := true, queue := [c3_item] }).sync_in_progress = true
    ∧ (check_connection true (fun _ => true) false
        { is_online := true, sync_in_progress := true, queue := [c3_item] }).queue = [c3_item]
    ∧ (perform_sync (fun _ => true)
        { is_online := true, sync_in_progress := false, queue := [c3_item] }).1.sync_in_progress
      = false :=
  c9_single_flight true false (fun _ => true)
    { is_online := true, sync_in_progress := true, queue := [c3_item] }
    { is_online := true, sync_in_progress := false, queue := [c3_item] } rfl

/-- C10: `get_sync_status` is total and never raises — every path yields
a `SyncStatus` record, whose fields are exactly the keys `online`,
`sync_in_progress`, `pending_items`, `failed_items`, `unsynced_blinks`
and `pending_records` — and whenever an internal storage query fails the
default record with `online = false`, `sync_in_progress = false` and all
counts 0 is returned instead of propagating the error.  For every state
of the store a query does fail (the third query reads the nonexistent
table `blink_data`), so the result is always that default record. -/
theorem c10_get_sync_status_total (st : SyncManagerState) :
    get_sync_status st = default_sync_status
    ∧ (get_sync_status st).online = false
    ∧ (get_sync_status st).sync_in_progress = false
    ∧ (get_sync_status st).pending_items = 0
    ∧ (get_sync_status st).failed_items = 0
    ∧ (get_sync_status st).unsynced_blinks = 0
    ∧ (get_sync_status st).pending_records = 0 :=
  ⟨rfl, rfl, rfl, rfl, rfl, rfl, rfl⟩

end WawEyeTracker
